import Mathlib

/-!
Shallow embedding of the LinkedIn automation pipeline
(src/DevOpsLinkedinAutomation.py and src/DevOpsLinkedinAutomation3.py).

The program is a linear four-stage pipeline: topic selection from a fixed
rotation, text generation, diagram generation, and publishing (register
upload, binary upload, post creation).  External backends (the text
generation API, the graphviz-based diagram renderer, and the platform's
HTTP endpoints) are parameters of the embedding: each stage receives the
outcome its backend would produce, and the embedded code routes it
exactly as the Python does (try/except blocks become Except matches that
return none).  Log emission is modelled where claims mention it
(generate_content); elsewhere only control flow, call traces, the
rotation cursor and the filesystem effect are modelled.
-/

namespace LinkedinAutomation

/-- Python truthiness of an optional string: `None` and `""` are falsy.
The source guards stages with `if not content:` etc. -/
def falsy : Option String → Bool
  | none => true
  | some s => s = ""

/-- `TOPICS` list, identical in both source files (lines 36-45 / 42-51). -/
def TOPICS : List String :=
  ["DevOps", "Kubernetes", "Docker", "Helm", "Terraform", "Azure", "EKS", "AKS"]

/-- `SEO_KEYWORDS` dict, identical in both source files (lines 48-57 / 54-63).
Lookup on a key outside the dict is `none` (a Python `KeyError`). -/
def SEO_KEYWORDS : String → Option String := fun t =>
  if t = "DevOps" then
    some "DevOps practices, CI/CD pipelines, automation, cloud-native development, infrastructure as code"
  else if t = "Kubernetes" then
    some "Kubernetes orchestration, container management, cloud-native apps, K8s clusters, microservices"
  else if t = "Docker" then
    some "Docker containers, containerization, Docker images, DevOps tools, cloud deployment"
  else if t = "Helm" then
    some "Helm charts, Kubernetes package manager, app deployment, Helm templates, DevOps tools"
  else if t = "Terraform" then
    some "Terraform infrastructure as code, cloud provisioning, multi-cloud deployment, DevOps automation"
  else if t = "Azure" then
    some "Microsoft Azure, cloud computing, Azure DevOps, cloud services, Azure Kubernetes Service (AKS)"
  else if t = "EKS" then
    some "Amazon EKS, Kubernetes on AWS, managed Kubernetes, cloud-native apps, AWS services"
  else if t = "AKS" then
    some "Azure Kubernetes Service, managed Kubernetes, cloud-native apps, Azure DevOps, container orchestration"
  else none

/-! ## Startup credential checks (module level) -/

/-- Module-level credential check of src/DevOpsLinkedinAutomation.py
(lines 25-33): the four environment variables are read, but only
`openai.api_key` is tested; a falsy key logs an error and calls
`exit(1)`.  Result: `some code` when the process exits at startup with
that code, `none` when startup proceeds. -/
def startup_exit1 (openai_key client_id client_secret access_token : Option String) :
    Option Nat :=
  if falsy openai_key then some 1 else none

/-- Module-level check of src/DevOpsLinkedinAutomation3.py (lines 25-39):
first the local generation pipeline is initialized (`exit(1)` if that
raises), then `if not all([CLIENT_ID, CLIENT_SECRET, ACCESS_TOKEN])`
logs and calls `exit(1)`. -/
def startup_exit3 (pipeline_ok : Bool) (client_id client_secret access_token : Option String) :
    Option Nat :=
  if !pipeline_ok then some 1
  else if falsy client_id || falsy client_secret || falsy access_token then some 1
  else none

/-! ## Content generation -/

/-- The f-string prompt built in `generate_content` (lines 65-69). -/
def content_prompt (topic kw : String) : String :=
  "Write a short LinkedIn post about " ++ topic ++
  " in the context of DevOps and cloud-native technologies. " ++
  "The post should be engaging, informative, and suitable for a professional audience. " ++
  "Include relevant keywords for Google and LinkedIn SEO: " ++ kw ++ "."

/-- `generate_content(topic)` (file 1 lines 62-81, file 3 lines 68-81; the
two differ only in which backend the prompt is sent to, so the backend is
a parameter).  Inside the `try`: the prompt interpolates
`SEO_KEYWORDS[topic]` (a `KeyError` for unknown topics), then the backend
is called and the choice text is stripped.  The `except` clause catches
every exception, logs it, and returns `None`.  Result: the returned
optional content paired with the error-log lines emitted. -/
def generate_content (backend : String → Except String String) (topic : String) :
    Option String × List String :=
  match SEO_KEYWORDS topic with
  | none =>
      (none, ["Failed to generate content for " ++ topic ++ ": KeyError"])
  | some kw =>
      match backend (content_prompt topic kw) with
      | Except.error e =>
          (none, ["Failed to generate content for " ++ topic ++ ": " ++ e])
      | Except.ok text => (some text.trim, [])

/-! ## Diagram generation -/

/-- A node of a diagram: the constructor used (`User`, `Server`, `EKS`,
`AKS`) and its label.  Each constructor call in the source creates a
distinct node, in order. -/
abbrev DiagramNode := String × String

/-- A directed edge: source label, destination label, and the `Edge`
color. -/
abbrev DiagramEdge := String × String × String

/-- The declarative description a `with Diagram(...)` block hands to the
renderer: nodes in creation order, colored directed edges, clusters. -/
structure DiagramSpec where
  nodes : List DiagramNode
  edges : List DiagramEdge
  clusters : List String
deriving DecidableEq, Repr

/-- The topic dispatch inside `generate_diagram` (if/elif chain, file 1
lines 88-115, identical in file 3 lines 89-116): each known topic
declares its own nodes and colored edges; a topic matching no branch
declares nothing. -/
def diagramTemplate (topic : String) : DiagramSpec :=
  if topic = "Kubernetes" then
    { nodes := [("Server", "Master Node"), ("Server", "Worker Node 1"),
                ("Server", "Worker Node 2")],
      edges := [("Master Node", "Worker Node 1", "blue"),
                ("Master Node", "Worker Node 2", "blue")],
      clusters := ["Kubernetes Cluster"] }
  else if topic = "Docker" then
    { nodes := [("Server", "Container 1"), ("Server", "Container 2")],
      edges := [("Container 1", "Container 2", "green")],
      clusters := ["Docker Containers"] }
  else if topic = "EKS" then
    { nodes := [("EKS", "Amazon EKS"), ("Server", "Worker Nodes")],
      edges := [("Amazon EKS", "Worker Nodes", "orange")],
      clusters := [] }
  else if topic = "AKS" then
    { nodes := [("AKS", "Azure AKS"), ("Server", "Worker Nodes")],
      edges := [("Azure AKS", "Worker Nodes", "purple")],
      clusters := [] }
  else if topic = "Terraform" then
    { nodes := [("User", "Developer"), ("Server", "Terraform"),
                ("Server", "Terraform"), ("Server", "AWS"),
                ("Server", "Azure"), ("Server", "GCP")],
      edges := [("Developer", "Terraform", "red"),
                ("Terraform", "AWS", "red"), ("Terraform", "Azure", "red"),
                ("Terraform", "GCP", "red")],
      clusters := [] }
  else if topic = "Helm" then
    { nodes := [("User", "Developer"), ("Server", "Helm"),
                ("Server", "Helm"), ("Server", "Kubernetes")],
      edges := [("Developer", "Helm", "yellow"),
                ("Helm", "Kubernetes", "yellow")],
      clusters := [] }
  else if topic = "Azure" then
    { nodes := [("User", "Developer"), ("Server", "Azure Services"),
                ("Server", "Azure Services"), ("Server", "AKS"),
                ("Server", "Functions"), ("Server", "Storage")],
      edges := [("Developer", "Azure Services", "blue"),
                ("Azure Services", "AKS", "blue"),
                ("Azure Services", "Functions", "blue"),
                ("Azure Services", "Storage", "blue")],
      clusters := [] }
  else if topic = "DevOps" then
    { nodes := [("User", "Developer"), ("Server", "CI/CD Pipeline"),
                ("Server", "CI/CD Pipeline"), ("Server", "Kubernetes"),
                ("Server", "Docker"), ("Server", "Terraform")],
      edges := [("Developer", "CI/CD Pipeline", "black"),
                ("CI/CD Pipeline", "Kubernetes", "black"),
                ("CI/CD Pipeline", "Docker", "black"),
                ("CI/CD Pipeline", "Terraform", "black")],
      clusters := [] }
  else { nodes := [], edges := [], clusters := [] }

/-- The output path of file 1 (line 86): `f"diagrams/{topic}_diagram.png"`. -/
def diagram_path (topic : String) : String :=
  "diagrams/" ++ topic ++ "_diagram.png"

/-- The hard-coded output path of file 3 (line 86). -/
def diagram_path3 (topic : String) : String :=
  "D:/The Devops Junction/Linkedinautomation/diagrams/" ++ topic ++ "_diagram.png"

/-- A filesystem abstracted as the directories and files that exist. -/
structure FS where
  dirs : List String
  files : List String
deriving DecidableEq, Repr

/-- The directory part of a slash-separated path: everything before the
last slash (empty when there is no slash). -/
def parentDir (p : String) : String :=
  String.mk (((p.data.reverse.dropWhile (fun c => c ≠ '/')).drop 1).reverse)

/-- Filesystem effect of the diagram backend's render step: the graphviz
`save` used by the `diagrams` library creates every missing parent
directory of the target path, then writes the image file there
(overwriting any previous file at that path). -/
def mkdirsWrite (fs : FS) (p : String) : FS :=
  { dirs := parentDir p :: fs.dirs, files := p :: fs.files }

/-- Outcome of the render performed when the `with Diagram(...)` block
exits: either it succeeds, or it raises with a message (missing renderer
dependency, filesystem error). -/
inductive RenderOutcome
  | ok
  | err (msg : String)
deriving DecidableEq

/-- `generate_diagram(topic)` (file 1 lines 83-119): computes the
topic-derived path, renders the template under `with Diagram(...)`, and
returns the path; any exception is caught, logged and turned into
`None`, leaving the filesystem as the failed render left it (here:
unchanged). -/
def generate_diagram (render : RenderOutcome) (fs : FS) (topic : String) :
    Option String × FS :=
  let p := diagram_path topic
  match render with
  | RenderOutcome.ok => (some p, mkdirsWrite fs p)
  | RenderOutcome.err _ => (none, fs)

/-- `generate_diagram(topic)` of file 3 (lines 83-120): identical to
file 1 except for the hard-coded absolute output path. -/
def generate_diagram3 (render : RenderOutcome) (fs : FS) (topic : String) :
    Option String × FS :=
  let p := diagram_path3 topic
  match render with
  | RenderOutcome.ok => (some p, mkdirsWrite fs p)
  | RenderOutcome.err _ => (none, fs)

/-! ## Publisher -/

/-- One external invocation the orchestrator or publisher performs,
recorded in order. -/
inductive Event
  | contentCall
  | diagramCall
  | registerCall
  | uploadCall
  | postCall
deriving DecidableEq, Repr

/-- Outcomes of the three platform HTTP calls and the two generation
backends for one run; each stage of the embedding consumes the outcome
its backend would produce. -/
structure Env where
  backend : String → Except String String
  render : RenderOutcome
  register : Except String (String × String)
  upload : Except String Unit
  postOutcome : Except String Unit

/-- `upload_image_to_linkedin(image_path)` (lines 121-155): the
registration request is issued; on a non-2xx or missing field the raised
exception is caught and `None` returned, so the binary upload is never
reached.  Otherwise the binary upload is issued; on failure the
exception is likewise caught and `None` returned; on success the asset
URN from the registration response is returned.  The event list records
which HTTP calls were made. -/
def upload_image_to_linkedin (env : Env) (image_path : String) :
    Option String × List Event :=
  match env.register with
  | Except.error _ => (none, [Event.registerCall])
  | Except.ok (_uploadUrl, asset) =>
      match env.upload with
      | Except.error _ => (none, [Event.registerCall, Event.uploadCall])
      | Except.ok _ => (some asset, [Event.registerCall, Event.uploadCall])

/-- `post_to_linkedin(content, image_urn)` (lines 157-181): issues the
post request; success and failure are both swallowed (the `except`
clause only logs), so the caller observes nothing. `true` iff the post
succeeded. -/
def post_to_linkedin (outcome : Except String Unit) : Bool :=
  match outcome with
  | Except.ok _ => true
  | Except.error _ => false

/-! ## Run orchestrator -/

/-- Observable result of one `post_to_linkedin_with_image()` run: the
rotation cursor after the run, the trace of stage invocations, and the
filesystem. -/
structure RunResult where
  cursor : Nat
  trace : List Event
  fs : FS
deriving Repr

/-- `post_to_linkedin_with_image()` (file 1 lines 183-212, identical
control flow in file 3 lines 187-216): reads `TOPICS[current_topic_index]`,
runs content generation, diagram generation, upload and post in order,
returning early (cursor unchanged) when a stage yields a falsy result;
only after `post_to_linkedin` returns is the cursor advanced by
`(current_topic_index + 1) % len(TOPICS)`. -/
def post_to_linkedin_with_image (env : Env) (fs : FS) (i : Nat) : RunResult :=
  let topic := TOPICS.getD i ""
  let c := generate_content env.backend topic
  if falsy c.fst then
    { cursor := i, trace := [Event.contentCall], fs := fs }
  else
    let d := generate_diagram env.render fs topic
    match d.fst with
    | none =>
        { cursor := i, trace := [Event.contentCall, Event.diagramCall], fs := d.snd }
    | some dp =>
        let u := upload_image_to_linkedin env dp
        match u.fst with
        | none =>
            { cursor := i,
              trace := Event.contentCall :: Event.diagramCall :: u.snd,
              fs := d.snd }
        | some _urn =>
            let _posted := post_to_linkedin env.postOutcome
            { cursor := (i + 1) % TOPICS.length,
              trace := Event.contentCall :: Event.diagramCall :: u.snd ++ [Event.postCall],
              fs := d.snd }

/-! ## Topic selector, as the orchestrator maintains it -/

/-- `advance`: the cursor update performed at the end of a successful run
(line 211): `current_topic_index = (current_topic_index + 1) % len(TOPICS)`. -/
def advance (i : Nat) : Nat := (i + 1) % TOPICS.length

/-- `N` successive cursor advances. -/
def advanceN (i : Nat) : Nat → Nat
  | 0 => i
  | n + 1 => advance (advanceN i n)

/-- `currentTopic`: the read `TOPICS[current_topic_index]` (line 187). -/
def currentTopic (i : Nat) : String := TOPICS.getD i ""

/-! ## Concrete environments and filesystems used as test vectors -/

/-- An initially empty filesystem. -/
def fs0 : FS := { dirs := [], files := [] }

/-- All backends succeed. -/
def envAllOk : Env :=
  { backend := fun _ => Except.ok "Generated post text",
    render := RenderOutcome.ok,
    register := Except.ok ("https://upload.example", "urn:li:digitalmediaAsset:42"),
    upload := Except.ok (),
    postOutcome := Except.ok () }

/-- The text backend raises; everything downstream would succeed. -/
def envFailContent : Env :=
  { backend := fun _ => Except.error "backend down",
    render := RenderOutcome.ok,
    register := Except.ok ("https://upload.example", "urn:li:digitalmediaAsset:42"),
    upload := Except.ok (),
    postOutcome := Except.ok () }

/-- The upload registration fails; earlier stages succeed. -/
def envFailRegister : Env :=
  { backend := fun _ => Except.ok "Generated post text",
    render := RenderOutcome.ok,
    register := Except.error "401 Unauthorized",
    upload := Except.ok (),
    postOutcome := Except.ok () }

end LinkedinAutomation

namespace LinkedinAutomation

/-! ## Claims -/

/-- C5: for every initial cursor `i < |TOPICS|` and every `N`, the cursor
after `N` advances is `(i + N) % |TOPICS|`, it stays in range, and
reading the current topic then yields the topic at that position. -/
theorem c5_rotation_cursor (i N : Nat) (h : i < TOPICS.length) :
    advanceN i N = (i + N) % TOPICS.length ∧
    advanceN i N < TOPICS.length ∧
    currentTopic (advanceN i N) = TOPICS.getD ((i + N) % TOPICS.length) "" := by
  have hlen : TOPICS.length = 8 := rfl
  rw [hlen] at h
  have key : advanceN i N = (i + N) % TOPICS.length := by
    induction N with
    | zero =>
        simp only [advanceN, Nat.add_zero, hlen]
        omega
    | succ n ih =>
        simp only [advanceN, advance, ih, hlen]
        omega
  refine ⟨key, ?_, by rw [key]; rfl⟩
  rw [key, hlen]
  omega

/-- Witness for C5 at `i = 5`, `N = 6`: the cursor wraps to `3`. -/
theorem c5_rotation_cursor_witness :
    advanceN 5 6 = (5 + 6) % TOPICS.length ∧
    advanceN 5 6 < TOPICS.length ∧
    currentTopic (advanceN 5 6) = TOPICS.getD ((5 + 6) % TOPICS.length) "" :=
  c5_rotation_cursor 5 6 (by decide)

/-- C6: if the text backend raises on every prompt, `generate_content`
returns `None` instead of propagating, and logs the failure. -/
theorem c6_backend_failure_yields_none (backend : String → Except String String)
    (topic : String) (h : ∀ p, ∃ e, backend p = Except.error e) :
    (generate_content backend topic).fst = none ∧
    (generate_content backend topic).snd ≠ [] := by
  cases hk : SEO_KEYWORDS topic with
  | none => simp [generate_content, hk]
  | some kw =>
      obtain ⟨e, he⟩ := h (content_prompt topic kw)
      simp [generate_content, hk, he]

/-- Witness for C6: a backend that always raises, on topic "DevOps". -/
theorem c6_backend_failure_yields_none_witness :
    (generate_content (fun _ => Except.error "timeout") "DevOps").fst = none ∧
    (generate_content (fun _ => Except.error "timeout") "DevOps").snd ≠ [] :=
  c6_backend_failure_yields_none (fun _ => Except.error "timeout") "DevOps"
    (fun _ => ⟨"timeout", rfl⟩)

/-- C10: a topic absent from the SEO keyword map makes `generate_content`
return `None` with a logged failure — the `KeyError` is swallowed by the
same handler as a backend failure, so no exception escapes. -/
theorem c10_unknown_topic_keyerror (backend : String → Except String String)
    (topic : String) (h : SEO_KEYWORDS topic = none) :
    (generate_content backend topic).fst = none ∧
    (generate_content backend topic).snd ≠ [] ∧
    (generate_content backend topic).fst =
      (generate_content (fun _ => Except.error "backend failure") topic).fst := by
  simp [generate_content, h]

/-- Witness for C10: topic "Quantum" is not in the keyword map; even with
a healthy backend the result is `None`, indistinguishable from a backend
failure. -/
theorem c10_unknown_topic_keyerror_witness :
    (generate_content (fun _ => Except.ok "fine text") "Quantum").fst = none ∧
    (generate_content (fun _ => Except.ok "fine text") "Quantum").snd ≠ [] ∧
    (generate_content (fun _ => Except.ok "fine text") "Quantum").fst =
      (generate_content (fun _ => Except.error "backend failure") "Quantum").fst :=
  c10_unknown_topic_keyerror (fun _ => Except.ok "fine text") "Quantum" (by decide)

/-- C7: the dispatch covers the eight rotation topics with eight distinct
topic-specific templates, each declaring labeled nodes and colored
directed edges. -/
theorem c7_eight_topic_templates :
    TOPICS.length = 8 ∧
    (TOPICS.all fun t =>
      !(diagramTemplate t).nodes.isEmpty &&
      !(diagramTemplate t).edges.isEmpty &&
      (diagramTemplate t).edges.all fun e => !(e.2.2 == "")) = true ∧
    TOPICS.Pairwise (fun a b => diagramTemplate a ≠ diagramTemplate b) := by
  refine ⟨rfl, by decide, ?_⟩
  decide

/-- C2: whenever `generate_diagram` reports success, the parent directory
of the returned path exists in the resulting filesystem (the render step
creates it when missing). -/
theorem c2_parent_dir_exists_on_success (render : RenderOutcome) (fs : FS)
    (topic p : String) (h : (generate_diagram render fs topic).fst = some p) :
    parentDir p ∈ ((generate_diagram render fs topic).snd).dirs := by
  cases render with
  | err m => simp [generate_diagram] at h
  | ok =>
      simp only [generate_diagram] at h ⊢
      obtain rfl : diagram_path topic = p := by simpa using h
      simp [mkdirsWrite]

/-- Witness for C2: starting from an empty filesystem, where `diagrams`
does not exist, a successful run for "DevOps" leaves `diagrams` existing. -/
theorem c2_parent_dir_exists_on_success_witness :
    parentDir (diagram_path "DevOps") = "diagrams" ∧
    "diagrams" ∉ fs0.dirs ∧
    parentDir (diagram_path "DevOps") ∈
      ((generate_diagram RenderOutcome.ok fs0 "DevOps").snd).dirs :=
  ⟨by decide, by decide,
   c2_parent_dir_exists_on_success RenderOutcome.ok fs0 "DevOps"
     (diagram_path "DevOps") rfl⟩

/-- C8: the output path is a function of the topic alone; re-invoking for
the same topic returns the same path and writes to that same path again,
in both source files. -/
theorem c8_idempotent_per_topic (topic : String) (fs : FS) :
    (generate_diagram RenderOutcome.ok fs topic).fst = some (diagram_path topic) ∧
    (generate_diagram RenderOutcome.ok
        ((generate_diagram RenderOutcome.ok fs topic).snd) topic).fst =
      (generate_diagram RenderOutcome.ok fs topic).fst ∧
    diagram_path topic ∈ ((generate_diagram RenderOutcome.ok fs topic).snd).files ∧
    diagram_path topic ∈
      ((generate_diagram RenderOutcome.ok
          ((generate_diagram RenderOutcome.ok fs topic).snd) topic).snd).files ∧
    (generate_diagram3 RenderOutcome.ok fs topic).fst = some (diagram_path3 topic) ∧
    (generate_diagram3 RenderOutcome.ok
        ((generate_diagram3 RenderOutcome.ok fs topic).snd) topic).fst =
      (generate_diagram3 RenderOutcome.ok fs topic).fst := by
  simp [generate_diagram, generate_diagram3, mkdirsWrite]

/-- C9: a topic outside the eight known ones matches no dispatch branch:
the template is empty (no nodes, no edges), yet the call still succeeds
and returns the topic-derived path rather than `None`. -/
theorem c9_unknown_topic_falls_through (topic : String) (h : topic ∉ TOPICS)
    (fs : FS) :
    diagramTemplate topic = { nodes := [], edges := [], clusters := [] } ∧
    (generate_diagram RenderOutcome.ok fs topic).fst = some (diagram_path topic) := by
  simp only [TOPICS, List.mem_cons, List.not_mem_nil, or_false, not_or] at h
  obtain ⟨h1, h2, h3, h4, h5, h6, h7, h8⟩ := h
  refine ⟨?_, by simp [generate_diagram]⟩
  simp [diagramTemplate, h1, h2, h3, h4, h5, h6, h7, h8]

/-- Witness for C9 on the unknown topic "Quantum". -/
theorem c9_unknown_topic_falls_through_witness :
    diagramTemplate "Quantum" = { nodes := [], edges := [], clusters := [] } ∧
    (generate_diagram RenderOutcome.ok fs0 "Quantum").fst =
      some (diagram_path "Quantum") :=
  c9_unknown_topic_falls_through "Quantum" (by decide) fs0

/-- C3 counterexample: in src/DevOpsLinkedinAutomation.py, with the
generation-backend key present but every platform credential absent,
startup does not exit — refuting the claim that any missing platform
credential causes a non-zero exit. -/
theorem c3_counterexample :
    startup_exit1 (some "sk-key") none none none = none := rfl

/-- C3 amended: file 1's startup outcome ignores the platform
credentials entirely and exits 1 exactly when the generation-backend key
is falsy; file 3 (which has no generation credential) proceeds past
startup iff its pipeline initializes and all three platform credentials
are truthy, exiting 1 otherwise. -/
theorem c3_startup_checks (ok cid cs acc cid' cs' acc' : Option String) (p : Bool) :
    startup_exit1 ok cid cs acc = startup_exit1 ok cid' cs' acc' ∧
    startup_exit1 none cid cs acc = some 1 ∧
    (startup_exit3 p cid cs acc = none ↔
      p = true ∧ falsy cid = false ∧ falsy cs = false ∧ falsy acc = false) := by
  refine ⟨by simp [startup_exit1], rfl, ?_⟩
  cases p <;> cases hcid : falsy cid <;> cases hcs : falsy cs <;>
    cases hacc : falsy acc <;> simp [startup_exit3, hcid, hcs, hacc]

/-- C1 counterexample: a run whose content generation fails (from cursor
0) leaves the cursor at 0 — it is not advanced to `(0 + 1) % |TOPICS|`,
refuting "the cursor is advanced by exactly one position ... regardless
of which stage failed". -/
theorem c1_counterexample :
    (post_to_linkedin_with_image envFailContent fs0 0).cursor = 0 ∧
    (post_to_linkedin_with_image envFailContent fs0 0).cursor ≠
      (0 + 1) % TOPICS.length := by
  decide

/-- C1 amended: the cursor is advanced by exactly one position modulo the
topic count only in runs that reach post creation (content, diagram and
upload all succeeded — the post call itself may still fail); in every
other run the cursor is left unchanged. -/
theorem c1_cursor_advances_iff_post_reached (env : Env) (fs : FS) (i : Nat)
    (hi : i < TOPICS.length) :
    (post_to_linkedin_with_image env fs i).cursor =
      if (post_to_linkedin_with_image env fs i).trace.count Event.postCall = 1
      then (i + 1) % TOPICS.length else i := by
  obtain ⟨b, r, reg, up, po⟩ := env
  simp only [post_to_linkedin_with_image]
  generalize TOPICS.getD i "" = t
  cases hc : falsy (generate_content b t).fst <;>
    cases r <;> rcases reg with msg | ⟨url, asset⟩ <;> rcases up with msg2 | u <;>
      simp [generate_diagram, upload_image_to_linkedin, hc,
        List.count_cons, List.count_nil]

/-- Witness for C1 amended: from cursor 0 with every backend succeeding,
post creation is reached and the cursor becomes `(0 + 1) % |TOPICS|`. -/
theorem c1_cursor_advances_iff_post_reached_witness :
    (post_to_linkedin_with_image envAllOk fs0 0).cursor =
      if (post_to_linkedin_with_image envAllOk fs0 0).trace.count Event.postCall = 1
      then (0 + 1) % TOPICS.length else 0 :=
  c1_cursor_advances_iff_post_reached envAllOk fs0 0 (by decide)

/-- C4: a falsy content result means the diagram generator and all three
publisher calls are never invoked; a failed upload registration means
the binary upload and post creation are never invoked. -/
theorem c4_stage_short_circuit (env : Env) (fs : FS) (i : Nat) :
    (falsy (generate_content env.backend (TOPICS.getD i "")).fst = true →
      (post_to_linkedin_with_image env fs i).trace.count Event.diagramCall = 0 ∧
      (post_to_linkedin_with_image env fs i).trace.count Event.registerCall = 0 ∧
      (post_to_linkedin_with_image env fs i).trace.count Event.uploadCall = 0 ∧
      (post_to_linkedin_with_image env fs i).trace.count Event.postCall = 0) ∧
    (∀ msg, env.register = Except.error msg →
      (post_to_linkedin_with_image env fs i).trace.count Event.uploadCall = 0 ∧
      (post_to_linkedin_with_image env fs i).trace.count Event.postCall = 0) := by
  obtain ⟨b, r, reg, up, po⟩ := env
  constructor
  · intro hc
    simp only [post_to_linkedin_with_image]
    generalize TOPICS.getD i "" = t at hc ⊢
    simp [hc, List.count_cons, List.count_nil]
  · rintro msg rfl
    simp only [post_to_linkedin_with_image]
    generalize TOPICS.getD i "" = t
    cases hc : falsy (generate_content b t).fst <;> cases r <;>
      simp [generate_diagram, upload_image_to_linkedin, hc,
        List.count_cons, List.count_nil]

/-- Witness for C4: with a failing content backend no later stage runs;
with a failing registration neither the binary upload nor post creation
runs. -/
theorem c4_stage_short_circuit_witness :
    ((post_to_linkedin_with_image envFailContent fs0 0).trace.count Event.diagramCall = 0 ∧
     (post_to_linkedin_with_image envFailContent fs0 0).trace.count Event.registerCall = 0 ∧
     (post_to_linkedin_with_image envFailContent fs0 0).trace.count Event.uploadCall = 0 ∧
     (post_to_linkedin_with_image envFailContent fs0 0).trace.count Event.postCall = 0) ∧
    ((post_to_linkedin_with_image envFailRegister fs0 0).trace.count Event.uploadCall = 0 ∧
     (post_to_linkedin_with_image envFailRegister fs0 0).trace.count Event.postCall = 0) :=
  ⟨(c4_stage_short_circuit envFailContent fs0 0).1 (by decide),
   (c4_stage_short_circuit envFailRegister fs0 0).2 "401 Unauthorized" rfl⟩

end LinkedinAutomation
